import Mathlib

/-!
Shallow embedding of the NatHacks assistive-mirror perception core, checked
against its natural-language specification.

Embedded source files:
* `src/backend/cloud_vision.py`   — `CloudVisionClient` (rate limiter, cache,
  circuit breaker, limit clamping).
* `src/backend/vision_pipeline.py` — EMA smoothing, cloud-landmark fusion,
  the adaptive performance governor, and the debounced tool-guidance state
  machine.
* `src/backend/ar_overlay.py`     — camera-intrinsics single-attempt cache and
  the rate-limited ArUco anchor detector.

Machine floats are modelled as rationals; timestamps are rationals (seconds)
or integers (nanoseconds), exactly as the source mixes `time.time()` and
`time.time_ns()`.  Opaque OpenCV / network effects (image decoding, marker
detection, pose estimation, the HTTP call) enter the model as explicit inputs
to each step function; everything downstream of those inputs is transcribed
from the Python source.
-/

set_option maxHeartbeats 1000000

namespace NatHacks

/-! ### CloudVisionClient state (src/backend/cloud_vision.py) -/

/-- Parsed remote response, as produced by `CloudVisionClient._parse_response`:
only its `ok` flag drives the client-state logic embedded here. -/
structure RResult where
  ok : Bool
deriving DecidableEq, Repr

/-- Mutable fields of `CloudVisionClient` (src/backend/cloud_vision.py,
`__init__`). The cache is the insertion-ordered map `_cache`
(key, stored-at seconds, result). -/
structure ClientState where
  enabled : Bool
  rps : Int
  timeout_s : ℚ
  min_interval_ms : Int
  ok_count : Nat
  fail_count : Nat
  last_ok_ns : Option Int
  breaker_open : Bool
  call_times : List ℚ
  last_call_ns : Int
  consecutive_failures : Nat
  breaker_until_ns : Int
  last_latency_ms : ℚ
  cache : List (String × ℚ × RResult)
deriving DecidableEq, Repr

/-- `CloudVisionClient.__init__`: limits are clamped (`max(1, int(rps))`,
`max(0.1, float(timeout_s))`, `max(0, int(min_interval_ms))`); counters and
breaker state start cleared.  `enabled` reflects credential availability. -/
def clientInit (enabled : Bool) (rps : Int) (timeout_s : ℚ) (min_interval_ms : Int) :
    ClientState :=
  { enabled := enabled
    rps := max 1 rps
    timeout_s := max (1/10) timeout_s
    min_interval_ms := max 0 min_interval_ms
    ok_count := 0
    fail_count := 0
    last_ok_ns := none
    breaker_open := false
    call_times := []
    last_call_ns := 0
    consecutive_failures := 0
    breaker_until_ns := 0
    last_latency_ms := 0
    cache := [] }

/-- `CloudVisionClient.update_limits`: same clamping as the constructor. -/
def updateLimits (st : ClientState) (rps : Int) (timeout_s : ℚ) (min_interval_ms : Int) :
    ClientState :=
  { st with
    rps := max 1 rps
    timeout_s := max (1/10) timeout_s
    min_interval_ms := max 0 min_interval_ms }

/-- `CloudVisionClient._reserve_slot_locked`: purge call timestamps older than
one second from the front of the deque, refuse when the rolling window is full
or the minimum inter-call interval has not elapsed, otherwise record the call.
The purge persists even when the reservation is refused. -/
def reserveSlot (st : ClientState) (now : ℚ) (now_ns : Int) : Bool × ClientState :=
  let ct := st.call_times.dropWhile (fun t => decide (now - t > 1))
  if (ct.length : Int) ≥ st.rps then
    (false, { st with call_times := ct })
  else if st.last_call_ns ≠ 0 ∧
      ((now_ns - st.last_call_ns : Int) : ℚ) / 1000000 < (st.min_interval_ms : ℚ) then
    (false, { st with call_times := ct })
  else
    (true, { st with call_times := ct ++ [now], last_call_ns := now_ns })

/-- Cache lookup in `detect_faces`: a hit requires presence and age within the
10-second TTL (`_CACHE_TTL_S`); stale entries are ignored, not deleted. -/
def cacheLookup (cache : List (String × ℚ × RResult)) (key : String) (now : ℚ) :
    Option RResult :=
  match cache.find? (fun e => e.1 == key) with
  | some e => if now - e.2.1 ≤ 10 then some e.2.2 else none
  | none => none

/-- Cache insertion in `_register_success`: overwrite the key, move it to the
most-recent end, and evict from the oldest end past `_CACHE_MAX = 32`. -/
def cacheStore (cache : List (String × ℚ × RResult)) (key : String) (now : ℚ)
    (r : RResult) : List (String × ℚ × RResult) :=
  let c := (cache.filter (fun e => e.1 != key)) ++ [(key, now, r)]
  c.drop (c.length - 32)

/-- `CloudVisionClient._register_success`: zero the consecutive-failure
counter and close the breaker unconditionally; on an `ok` result also bump
`ok_count`, stamp `last_ok_ns`, record the latency; both `ok` and negative
results are cached. -/
def registerSuccess (st : ClientState) (key : String) (r : RResult) (now : ℚ)
    (now_ns : Int) (latency_ms : ℚ) : ClientState :=
  let st := { st with consecutive_failures := 0, breaker_open := false }
  if r.ok then
    { st with
      ok_count := st.ok_count + 1
      last_ok_ns := some now_ns
      last_latency_ms := latency_ms
      cache := cacheStore st.cache key now r }
  else
    { st with cache := cacheStore st.cache key now r }

/-- `CloudVisionClient._register_failure`: bump both failure counters; at
three consecutive failures open the breaker for `_BREAKER_OPEN_SECONDS = 10`
(10^10 ns) from now. -/
def registerFailure (st : ClientState) (now_ns : Int) : ClientState :=
  let st := { st with
    fail_count := st.fail_count + 1
    consecutive_failures := st.consecutive_failures + 1 }
  if st.consecutive_failures ≥ 3 then
    { st with breaker_open := true, breaker_until_ns := now_ns + 10000000000 }
  else st

/-- Result of one `detect_faces` call, by exit path. -/
inductive CallResult where
  | disabled
  | breakerRefused
  | decodeFailed
  | cachedHit (r : RResult)
  | rateLimited
  | succeeded (r : RResult)
  | failed
deriving DecidableEq, Repr

/-- Observable outcome of one `detect_faces` call: the post-call client state,
the returned value, and whether any network request was attempted. -/
structure CallOutput where
  state : ClientState
  result : CallResult
  networkAttempted : Bool
deriving DecidableEq, Repr

/-- `CloudVisionClient.detect_faces`.  Opaque effects become inputs:
`imageNonempty` (the `image_bytes` truthiness check), `decodeOk` (JPEG decode
with nonzero dimensions), `key` (the perceptual-hash cache key of the image),
`attempts` (the per-retry network outcomes over the four backoff delays,
`some r` = parsed response, `none` = raised exception), `latency_ms` (measured
wall latency).  Control flow: breaker gate (refuse inside cooldown, reset
after it), decode, cache, rate limiter, then the retry loop: the first
success short-circuits, exhaustion registers one failure. -/
def detectFaces (st : ClientState) (imageNonempty decodeOk : Bool) (key : String)
    (attempts : List (Option RResult)) (latency_ms : ℚ) (now : ℚ) (now_ns : Int) :
    CallOutput :=
  if ¬ (st.enabled ∧ imageNonempty) then ⟨st, .disabled, false⟩
  else if st.breaker_open ∧ now_ns < st.breaker_until_ns then ⟨st, .breakerRefused, false⟩
  else
    let st1 := if st.breaker_open ∧ now_ns ≥ st.breaker_until_ns then
        { st with breaker_open := false, consecutive_failures := 0 }
      else st
    if ¬ decodeOk then ⟨st1, .decodeFailed, false⟩
    else
      match cacheLookup st1.cache key now with
      | some r => ⟨st1, .cachedHit r, false⟩
      | none =>
        let res := reserveSlot st1 now now_ns
        if res.1 then
          match (attempts.take 4).findSome? id with
          | some r => ⟨registerSuccess res.2 key r now now_ns latency_ms, .succeeded r, true⟩
          | none => ⟨registerFailure res.2 now_ns, .failed, true⟩
        else ⟨res.2, .rateLimited, false⟩

/-- External events driving a `CloudVisionClient` over its lifetime. -/
inductive ClientEvent where
  | updateLim (rps : Int) (timeout_s : ℚ) (min_interval_ms : Int)
  | call (imageNonempty decodeOk : Bool) (key : String)
      (attempts : List (Option RResult)) (latency_ms : ℚ) (now : ℚ) (now_ns : Int)

/-- One client event applied to the client state. -/
def clientStep (st : ClientState) : ClientEvent → ClientState
  | .updateLim r t m => updateLimits st r t m
  | .call a b k att l n nn => (detectFaces st a b k att l n nn).state

/-! ### EMA smoothing and cloud-landmark fusion
(src/backend/vision_pipeline.py, `VisionPipeline._smooth`,
`VisionPipeline._merge_cloud_landmarks`) -/

/-- A normalized 2-D landmark coordinate. -/
abbrev Landmark := ℚ × ℚ

/-- The `VisionPipeline._ema` per-key accumulator map. -/
abbrev EmaMap := String → Option Landmark

/-- A landmark set (`Dict[str, Tuple[float, float]]`). -/
abbrev LmMap := String → Option Landmark

/-- `VisionPipeline._smooth` with `_alpha = 0.4`: a key without a previous
value stores and returns the sample unchanged; otherwise blend
`alpha * sample + (1 - alpha) * prev` componentwise and store it. -/
def smooth (ema : EmaMap) (name : String) (value : Landmark) : EmaMap × Landmark :=
  match ema name with
  | none => (fun j => if j = name then some value else ema j, value)
  | some prev =>
    let s : Landmark :=
      (2/5 * value.1 + 3/5 * prev.1, 2/5 * value.2 + 3/5 * prev.2)
    (fun j => if j = name then some s else ema j, s)

/-- Clamp a cloud coordinate into [0, 1] (`min(1.0, max(0.0, c))`). -/
def clamp01 (x : ℚ) : ℚ := min 1 (max 0 x)

/-- The fusion weight of `_merge_cloud_landmarks`: the confidence when
positive, else 0.5, then clamped to [0.2, 0.8]. -/
def cloudWeight (confidence : ℚ) : ℚ :=
  let w := if confidence > 0 then confidence else 1/2
  max (1/5) (min (4/5) w)

/-- `VisionPipeline._merge_cloud_landmarks`: every remote landmark is clamped
into the unit square, blended with the current local value when present
(`local * (1 - weight) + remote * weight`) or adopted outright when absent,
then passed through `_smooth` under the same key.  The fold carries both the
EMA state and the growing blended map, exactly as the Python loop mutates
`self._ema` and `blended`. -/
def mergeCloudLandmarks (ema : EmaMap) (base : LmMap) (cloud : List (String × Landmark))
    (confidence : ℚ) : EmaMap × LmMap :=
  let weight := cloudWeight confidence
  cloud.foldl
    (fun acc entry =>
      let cx := clamp01 entry.2.1
      let cy := clamp01 entry.2.2
      let target : Landmark :=
        match acc.2 entry.1 with
        | some l => (l.1 * (1 - weight) + cx * weight, l.2 * (1 - weight) + cy * weight)
        | none => (cx, cy)
      let sm := smooth acc.1 entry.1 target
      (sm.1, fun j => if j = entry.1 then some sm.2 else acc.2 j))
    (ema, base)

/-- Iterated feeding of one constant sample `c` into `_smooth` under a fixed
key: `feedConst ema name c n` is the (EMA state, returned value) after the
`(n+1)`-th feed. -/
def feedConst (ema : EmaMap) (name : String) (c : Landmark) : Nat → EmaMap × Landmark
  | 0 => smooth ema name c
  | n + 1 => smooth (feedConst ema name c n).1 name c

/-- L1 distance between two landmark points. -/
def lmDist (a b : Landmark) : ℚ := |a.1 - b.1| + |a.2 - b.2|

/-! ### Adaptive performance governor
(src/backend/vision_pipeline.py, `VisionPipeline._adapt_performance`) -/

/-- The `PerformanceBudgetState` fields mutated by `_adapt_performance`. -/
structure PerfState where
  face_frame_stride : Int
  aruco_frame_stride : Int
  face_target_w : Int
  perf_last_adapt_ns : Int
deriving DecidableEq, Repr

/-- The escalate/relax section of `VisionPipeline._adapt_performance`:
latency-thresholded escalation (1200 / 600 / 300 ms), relaxation by one step
per axis after more than 3000 ms of sub-180 ms latency, with the face target
width regrown by a factor 1.25 (Python `int(w * 1.25)`, floor for the
positive widths that occur) capped at 1280. -/
def perfEscalate (st : PerfState) (e2e_ms : ℚ) (now_ns : Int) : PerfState :=
  if e2e_ms > 1200 then
    { st with
      face_frame_stride := max st.face_frame_stride 8
      aruco_frame_stride := max st.aruco_frame_stride 6
      face_target_w := min st.face_target_w 640
      perf_last_adapt_ns := now_ns }
  else if e2e_ms > 600 then
    { st with
      face_frame_stride := max st.face_frame_stride 4
      aruco_frame_stride := max st.aruco_frame_stride 4
      face_target_w := min st.face_target_w 800
      perf_last_adapt_ns := now_ns }
  else if e2e_ms > 300 then
    { st with
      face_frame_stride := max st.face_frame_stride 2
      aruco_frame_stride := max st.aruco_frame_stride 3
      face_target_w := min st.face_target_w 960
      perf_last_adapt_ns := now_ns }
  else
    if ((now_ns - st.perf_last_adapt_ns : Int) : ℚ) / 1000000 > 3000 ∧ e2e_ms < 180 then
      { st with
        face_frame_stride :=
          if st.face_frame_stride > 1 then st.face_frame_stride - 1
          else st.face_frame_stride
        aruco_frame_stride :=
          if st.aruco_frame_stride > 2 then st.aruco_frame_stride - 1
          else st.aruco_frame_stride
        face_target_w :=
          if st.face_target_w < 1280 then min 1280 (st.face_target_w * 5 / 4)
          else st.face_target_w
        perf_last_adapt_ns := now_ns }
    else st

/-- The safety-bounds section of `_adapt_performance`: face stride clamped to
[1, 8], fiducial stride to [2, 8], face target width to [320, 1280]. -/
def perfClamp (st : PerfState) : PerfState :=
  { st with
    face_frame_stride := min (max st.face_frame_stride 1) 8
    aruco_frame_stride := min (max st.aruco_frame_stride 2) 8
    face_target_w := min (max st.face_target_w 320) 1280 }

/-- The baseline-enforcement section of `_adapt_performance`: the
`aruco_stride` setting (raised to 1 when below 1) is a floor for the
fiducial stride. -/
def perfBaselineFloor (st : PerfState) (aruco_stride_setting : Int) : PerfState :=
  let baseline := if aruco_stride_setting < 1 then 1 else aruco_stride_setting
  if st.aruco_frame_stride < baseline then
    { st with aruco_frame_stride := baseline }
  else st

/-- `VisionPipeline._adapt_performance`: the three sections in source order —
escalate/relax, safety bounds, baseline floor. -/
def adaptPerformance (st : PerfState) (e2e_ms : ℚ) (now_ns : Int)
    (aruco_stride_setting : Int) : PerfState :=
  perfBaselineFloor (perfClamp (perfEscalate st e2e_ms now_ns)) aruco_stride_setting

/-! ### Debounced tool-guidance state machine
(src/backend/vision_pipeline.py, `VisionPipeline._build_tool_guidance`,
debounce block lines 836-846) -/

/-- The per-marker guidance states of the tool-alignment machine. -/
inductive GState where
  | SEARCHING
  | ALIGNING
  | GOOD
deriving DecidableEq, Repr

/-- The pipeline maps `_aruco_last_state` (confirmed state per marker id) and
`_aruco_state_since` (debounce timestamp per marker id); both start empty. -/
structure GuidanceMaps where
  lastState : Int → Option GState
  stateSince : Int → Option ℚ

/-- The debounce block of `_build_tool_guidance` for one marker observation:
`state` is the per-frame classification computed from geometry upstream.  When
it differs from the confirmed state, the change is reverted unless the
debounce window (`_aruco_debounce_s = 0.25`) has passed since the stored
timestamp (which defaults to `now` when absent); accepting a change also
stamps the timestamp.  The confirmed state is then recorded and used to render
the frame, so the second component is the externally reported state. -/
def debounceStep (g : GuidanceMaps) (aruco_id : Int) (state : GState) (now : ℚ) :
    GuidanceMaps × GState :=
  if g.lastState aruco_id ≠ some state then
    let since := (g.stateSince aruco_id).getD now
    if now - since < 1/4 then
      let accepted :=
        match g.lastState aruco_id with
        | some p => p
        | none => state
      ({ g with lastState := fun j => if j = aruco_id then some accepted else g.lastState j },
       accepted)
    else
      ({ lastState := fun j => if j = aruco_id then some state else g.lastState j
         stateSince := fun j => if j = aruco_id then some now else g.stateSince j },
       state)
  else
    ({ g with lastState := fun j => if j = aruco_id then some state else g.lastState j },
     state)

/-- One per-frame marker observation fed to the debounce machinery. -/
structure GuidObs where
  aruco_id : Int
  state : GState
  now : ℚ

/-- Initial guidance maps (`self._aruco_last_state = {}`,
`self._aruco_state_since = {}` in `VisionPipeline.__init__`). -/
def guidanceInit : GuidanceMaps := ⟨fun _ => none, fun _ => none⟩

/-- The guidance maps after a trace of observations from the initial state. -/
def runGuidance (obs : List GuidObs) : GuidanceMaps :=
  obs.foldl (fun g o => (debounceStep g o.aruco_id o.state o.now).1) guidanceInit

/-! ### Camera intrinsics single-attempt cache
(src/backend/ar_overlay.py, `load_camera_intrinsics`) -/

/-- Cached module-level intrinsics state (`_INTRINSICS_TRIED`,
`_INTRINSICS_OK`, `_K`, `_DIST`, `_INTRINSICS_ERR`). Matrices are modelled as
rational row lists. -/
structure IntrState where
  tried : Bool
  ok : Bool
  k : Option (List (List ℚ))
  dist : Option (List (List ℚ))
  err : Option String
deriving DecidableEq, Repr

/-- Outcome of reading an opened `cv2.FileStorage` handle inside the
`try` block of `load_camera_intrinsics`: not opened, missing `K`/`dist`
nodes, an exception raised by the node reads (caught by the
`except Exception` branch), or both matrices.  The exception the
`cv2.FileStorage` constructor itself may raise happens before the `try` and
is modelled separately by `CtorOutcome`. -/
inductive FSOutcome where
  | notOpened
  | missingNodes
  | excRaised (msg : String)
  | success (k d : List (List ℚ))
deriving DecidableEq, Repr

/-- The `(K, dist, ok, error)` tuple returned by `load_camera_intrinsics`. -/
abbrev IntrResult :=
  Option (List (List ℚ)) × Option (List (List ℚ)) × Bool × Option String

/-- Result of one `load_camera_intrinsics` call: new module state, returned
tuple, and whether the filesystem was touched (a `cv2.FileStorage` open). -/
structure LoadOutput where
  state : IntrState
  result : IntrResult
  fsTouched : Bool
deriving DecidableEq, Repr

/-- Module state at process start. -/
def intrInit : IntrState := ⟨false, false, none, none, none⟩

/-- The body of `load_camera_intrinsics` given that the `cv2.FileStorage`
constructor yielded a handle whose reads behave as `fs`: once
`_INTRINSICS_TRIED` is set the cached globals are returned without touching
the filesystem; otherwise the globals are filled per outcome and the
`finally` block marks the attempt as made.  The `path` argument only selects
the file that produced `fs`; it is ignored when the cache is hot.  The whole
function, constructor included, is `loadCameraIntrinsicsFull`. -/
def loadCameraIntrinsics (st : IntrState) (_path : String) (fs : FSOutcome) :
    LoadOutput :=
  if st.tried then ⟨st, (st.k, st.dist, st.ok, st.err), false⟩
  else
    match fs with
    | .notOpened =>
      ⟨{ st with tried := true, ok := false, err := some "file not found" },
       (none, none, false, some "file not found"), true⟩
    | .missingNodes =>
      ⟨{ st with tried := true, ok := false, err := some "missing K/dist nodes" },
       (none, none, false, some "missing K/dist nodes"), true⟩
    | .excRaised m =>
      ⟨{ st with tried := true, ok := false, err := some m },
       (none, none, false, some m), true⟩
    | .success km dm =>
      ⟨⟨true, true, some km, some dm, none⟩, (some km, some dm, true, none), true⟩

/-- Outcome of the `cv2.FileStorage` constructor call itself
(ar_overlay.py line 32, executed before the `try`/`finally`): either it
raises — e.g. a parse error on malformed file content — or it yields a
storage handle whose subsequent reads behave as `fs`. -/
inductive CtorOutcome where
  | raised (msg : String)
  | opened (fs : FSOutcome)
deriving DecidableEq, Repr

/-- Result of one full `load_camera_intrinsics` call: new module state, the
returned tuple (`none` when an exception propagated to the caller), and
whether the filesystem was touched. -/
structure LoadFullOutput where
  state : IntrState
  result : Option IntrResult
  fsTouched : Bool
deriving DecidableEq, Repr

/-- `load_camera_intrinsics` in full: after the hot-cache check, the
`cv2.FileStorage` constructor runs before the `try`/`finally` — when it
raises, no global has been assigned, `_INTRINSICS_TRIED` stays unset and the
exception propagates to the caller; when it yields a handle, the body
behaves as `loadCameraIntrinsics`. -/
def loadCameraIntrinsicsFull (st : IntrState) (path : String) (c : CtorOutcome) :
    LoadFullOutput :=
  if st.tried then ⟨st, some (st.k, st.dist, st.ok, st.err), false⟩
  else
    match c with
    | .raised _ => ⟨st, none, true⟩
    | .opened fs =>
      let o := loadCameraIntrinsics st path fs
      ⟨o.state, some o.result, o.fsTouched⟩

/-- A trace of full `load_camera_intrinsics` calls (path and constructor
outcome per call) applied to the module state. -/
def runIntrinsicsFull (st : IntrState) (calls : List (String × CtorOutcome)) :
    IntrState :=
  calls.foldl (fun s c => (loadCameraIntrinsicsFull s c.1 c.2).state) st

/-! ### Rate-limited ArUco anchor detection
(src/backend/ar_overlay.py, `detect_aruco_anchors` with `_smooth_pair`,
`_smooth_angles` and module caches) -/

/-- One marker as returned by `detect_markers`: id and raw center pixel. -/
structure MarkerIn where
  id : Int
  cx : ℚ
  cy : ℚ
deriving DecidableEq, Repr

/-- One smoothed anchor handed to the pipeline: marker id, smoothed center,
and smoothed yaw/pitch/roll degrees when pose fields were present. -/
structure Anchor where
  aruco_id : Int
  center : ℚ × ℚ
  pose : Option (ℚ × ℚ × ℚ)
deriving DecidableEq, Repr

/-- Module-level state of `ar_overlay`: the EMA caches `_prev_center` and
`_prev_angles` keyed by marker id, the detection-cadence clock `_last_ts`,
the cached `_last_anchors`, and the intrinsics cache. -/
structure ArucoState where
  prev_center : Int → Option (ℚ × ℚ)
  prev_angles : Int → Option (ℚ × ℚ × ℚ)
  last_ts : ℚ
  last_anchors : List Anchor
  intr : IntrState

/-- `ar_overlay._smooth_pair` with `_alpha = 0.4`: first observation for a
marker id is stored and returned unchanged, later ones are EMA-blended. -/
def smoothPair (m : Int → Option (ℚ × ℚ)) (key : Int) (v : ℚ × ℚ) :
    (Int → Option (ℚ × ℚ)) × (ℚ × ℚ) :=
  match m key with
  | none => (fun j => if j = key then some v else m j, v)
  | some prev =>
    let s := (2/5 * v.1 + 3/5 * prev.1, 2/5 * v.2 + 3/5 * prev.2)
    (fun j => if j = key then some s else m j, s)

/-- `ar_overlay._smooth_angles`: the same EMA, on yaw/pitch/roll triples. -/
def smoothAngles (m : Int → Option (ℚ × ℚ × ℚ)) (key : Int) (v : ℚ × ℚ × ℚ) :
    (Int → Option (ℚ × ℚ × ℚ)) × (ℚ × ℚ × ℚ) :=
  match m key with
  | none => (fun j => if j = key then some v else m j, v)
  | some prev =>
    let s := (2/5 * v.1 + 3/5 * prev.1,
              2/5 * v.2.1 + 3/5 * prev.2.1,
              2/5 * v.2.2 + 3/5 * prev.2.2)
    (fun j => if j = key then some s else m j, s)

/-- The `meta` dictionary returned by `detect_aruco_anchors`. -/
structure DetectMeta where
  pose_enabled : Bool
  pose_available : Bool
  intrinsics_error : Option String
deriving DecidableEq, Repr

/-- Observable outcome of one `detect_aruco_anchors` call: new module state,
returned anchors and meta, and whether marker detection actually ran (the
fresh path past the cadence cache). -/
structure DetectOutput where
  state : ArucoState
  anchors : List Anchor
  meta : DetectMeta
  detectionRan : Bool

/-- `detect_aruco_anchors`.  Opaque effects become inputs: `fs` is the
intrinsics-file outcome, `detection` is the `detect_markers` outcome (`none`
models the `ImportError` path), `poseOf` gives `estimate_pose`'s per-marker
Euler angles (`none` when the OpenCV helper yields nothing).  The cadence
cache (`_min_interval_s = 0.065`) applies only when the previous anchor list
is non-empty; it returns `_last_anchors` unchanged with meta recomputed from
the cached intrinsics status.  The fresh path stamps `_last_ts`, detects, runs
pose estimation only when pose is enabled and intrinsics loaded, smooths the
centers and (when present) angles per marker id, and caches the anchors. -/
def detectArucoAnchors (st : ArucoState) (now : ℚ) (pose_enabled : Bool)
    (fs : FSOutcome) (detection : Option (List MarkerIn))
    (poseOf : Int → Option (ℚ × ℚ × ℚ)) : DetectOutput :=
  if now - st.last_ts < 13/200 ∧ st.last_anchors ≠ [] then
    let load := loadCameraIntrinsics st.intr "config/camera_intrinsics.yml" fs
    let ok := load.result.2.2.1
    let err := load.result.2.2.2
    ⟨{ st with intr := load.state }, st.last_anchors,
     ⟨pose_enabled, pose_enabled && ok, if ok then none else err⟩, false⟩
  else
    let st := { st with last_ts := now }
    match detection with
    | none =>
      ⟨{ st with last_anchors := [] }, [],
       ⟨pose_enabled, false, some "aruco not available"⟩, true⟩
    | some markers =>
      let load := loadCameraIntrinsics st.intr "config/camera_intrinsics.yml" fs
      let ok := load.result.2.2.1
      let err := load.result.2.2.2
      let st := { st with intr := load.state }
      let pose_available := pose_enabled && ok
      let folded := markers.foldl
        (fun (acc : ArucoState × List Anchor) m =>
          let sp := smoothPair acc.1.prev_center m.id (m.cx, m.cy)
          let ang :=
            if pose_available then
              match poseOf m.id with
              | some ypr =>
                let sa := smoothAngles acc.1.prev_angles m.id ypr
                (sa.1, some sa.2)
              | none => (acc.1.prev_angles, (none : Option (ℚ × ℚ × ℚ)))
            else (acc.1.prev_angles, none)
          ({ acc.1 with prev_center := sp.1, prev_angles := ang.1 },
           acc.2 ++ [⟨m.id, sp.2, ang.2⟩]))
        (st, [])
      ⟨{ folded.1 with last_anchors := folded.2 }, folded.2,
       ⟨pose_enabled, pose_available, if pose_available then none else err⟩, true⟩

/-! ## Supporting lemmas -/

/-- The configured limit triple of a client state. -/
def limitsOf (st : ClientState) : Int × ℚ × Int :=
  (st.rps, st.timeout_s, st.min_interval_ms)

/-- `_reserve_slot_locked` never changes the configured limits. -/
theorem limitsOf_reserveSlot (st : ClientState) (now : ℚ) (now_ns : Int) :
    limitsOf (reserveSlot st now now_ns).2 = limitsOf st := by
  simp only [reserveSlot]
  repeat' split
  all_goals rfl

/-- `_register_success` never changes the configured limits. -/
theorem limitsOf_registerSuccess (st : ClientState) (k : String) (r : RResult)
    (now : ℚ) (nn : Int) (l : ℚ) :
    limitsOf (registerSuccess st k r now nn l) = limitsOf st := by
  simp only [registerSuccess]
  repeat' split
  all_goals rfl

/-- `_register_failure` never changes the configured limits. -/
theorem limitsOf_registerFailure (st : ClientState) (nn : Int) :
    limitsOf (registerFailure st nn) = limitsOf st := by
  simp only [registerFailure]
  repeat' split
  all_goals rfl

/-- `detect_faces` never changes the configured limits. -/
theorem limitsOf_detectFaces (st : ClientState) (a b : Bool) (k : String)
    (att : List (Option RResult)) (l now : ℚ) (nn : Int) :
    limitsOf (detectFaces st a b k att l now nn).state = limitsOf st := by
  simp only [detectFaces]
  repeat' split
  all_goals try rfl
  all_goals
    simp only [limitsOf_registerSuccess, limitsOf_registerFailure, limitsOf_reserveSlot]
  all_goals rfl

/-- `clientStep` never changes the configured limits except through
`updateLimits`, which clamps them. -/
theorem limitsFloor_clientStep (st : ClientState) (e : ClientEvent)
    (h : 1 ≤ st.rps ∧ 1/10 ≤ st.timeout_s ∧ 0 ≤ st.min_interval_ms) :
    1 ≤ (clientStep st e).rps ∧ 1/10 ≤ (clientStep st e).timeout_s ∧
    0 ≤ (clientStep st e).min_interval_ms := by
  cases e with
  | updateLim r t m =>
    refine ⟨le_max_left 1 r, le_max_left (1/10) t, le_max_left 0 m⟩
  | call a b k att l n nn =>
    have hl := limitsOf_detectFaces st a b k att l n nn
    have h1 : (detectFaces st a b k att l n nn).state.rps = st.rps :=
      congrArg Prod.fst hl
    have h2 : (detectFaces st a b k att l n nn).state.timeout_s = st.timeout_s :=
      congrArg (fun p => p.2.1) hl
    have h3 : (detectFaces st a b k att l n nn).state.min_interval_ms
        = st.min_interval_ms := congrArg (fun p => p.2.2) hl
    exact ⟨h1 ▸ h.1, h2 ▸ h.2.1, h3 ▸ h.2.2⟩

/-- The baseline floor touches only the fiducial stride. -/
theorem perfBaselineFloor_face (st : PerfState) (b : Int) :
    (perfBaselineFloor st b).face_frame_stride = st.face_frame_stride ∧
    (perfBaselineFloor st b).face_target_w = st.face_target_w ∧
    (perfBaselineFloor st b).perf_last_adapt_ns = st.perf_last_adapt_ns := by
  refine ⟨?_, ?_, ?_⟩ <;> (simp only [perfBaselineFloor]; repeat' split) <;> rfl

/-- The baseline floor only raises the fiducial stride, keeps it at least the
setting, and never pushes it above `max` of its input and the raised setting. -/
theorem perfBaselineFloor_aruco (st : PerfState) (b : Int) :
    st.aruco_frame_stride ≤ (perfBaselineFloor st b).aruco_frame_stride ∧
    b ≤ (perfBaselineFloor st b).aruco_frame_stride ∧
    (perfBaselineFloor st b).aruco_frame_stride
      ≤ max st.aruco_frame_stride (max 1 b) := by
  simp only [perfBaselineFloor]
  repeat' split
  all_goals refine ⟨?_, ?_, ?_⟩ <;> (dsimp only; omega)

/-- Field equations of the safety-bounds clamp. -/
theorem perfClamp_fields (st : PerfState) :
    (perfClamp st).face_frame_stride = min (max st.face_frame_stride 1) 8 ∧
    (perfClamp st).aruco_frame_stride = min (max st.aruco_frame_stride 2) 8 ∧
    (perfClamp st).face_target_w = min (max st.face_target_w 320) 1280 ∧
    (perfClamp st).perf_last_adapt_ns = st.perf_last_adapt_ns :=
  ⟨rfl, rfl, rfl, rfl⟩

/-- The escalate/relax stage on a cycle above 1200 ms. -/
theorem perfEscalate_hot (st : PerfState) (e2e_ms : ℚ) (now_ns : Int)
    (h : e2e_ms > 1200) :
    perfEscalate st e2e_ms now_ns =
      { st with
        face_frame_stride := max st.face_frame_stride 8
        aruco_frame_stride := max st.aruco_frame_stride 6
        face_target_w := min st.face_target_w 640
        perf_last_adapt_ns := now_ns } := by
  simp only [perfEscalate]
  rw [if_pos h]

/-- The escalate/relax stage lowers a stride only in the relax branch, whose
guard requires sub-180 ms latency and more than 3000 ms since adaptation. -/
theorem perfEscalate_decrease (st : PerfState) (e2e_ms : ℚ) (now_ns : Int) :
    ((perfEscalate st e2e_ms now_ns).face_frame_stride < st.face_frame_stride ∨
     (perfEscalate st e2e_ms now_ns).aruco_frame_stride < st.aruco_frame_stride) →
    e2e_ms < 180 ∧
    ((now_ns - st.perf_last_adapt_ns : Int) : ℚ) / 1000000 > 3000 := by
  simp only [perfEscalate]
  split
  next => intro hdec; exfalso; rcases hdec with h | h <;> (dsimp only at h; omega)
  next =>
    split
    next => intro hdec; exfalso; rcases hdec with h | h <;> (dsimp only at h; omega)
    next =>
      split
      next => intro hdec; exfalso; rcases hdec with h | h <;> (dsimp only at h; omega)
      next =>
        split
        next hcond => exact fun _ => ⟨hcond.2, hcond.1⟩
        next => intro hdec; exfalso; rcases hdec with h | h <;> omega

/-- The escalate/relax stage lowers each stride by at most one. -/
theorem perfEscalate_one_step (st : PerfState) (e2e_ms : ℚ) (now_ns : Int) :
    st.face_frame_stride - 1 ≤ (perfEscalate st e2e_ms now_ns).face_frame_stride ∧
    st.aruco_frame_stride - 1 ≤ (perfEscalate st e2e_ms now_ns).aruco_frame_stride := by
  simp only [perfEscalate]
  repeat' split
  all_goals constructor <;> (dsimp only; omega)

/-- The limit floors are preserved along any event trace. -/
theorem limitsFloor_run (evs : List ClientEvent) :
    ∀ st : ClientState,
      1 ≤ st.rps → 1/10 ≤ st.timeout_s → 0 ≤ st.min_interval_ms →
      1 ≤ (evs.foldl clientStep st).rps ∧
      1/10 ≤ (evs.foldl clientStep st).timeout_s ∧
      0 ≤ (evs.foldl clientStep st).min_interval_ms := by
  induction evs with
  | nil => exact fun st h1 h2 h3 => ⟨h1, h2, h3⟩
  | cons e rest ih =>
    intro st h1 h2 h3
    have h := limitsFloor_clientStep st e ⟨h1, h2, h3⟩
    exact ih (clientStep st e) h.1 h.2.1 h.2.2

/-- The debounce timestamp map is never written from a state where it is
empty: the write requires the stored timestamp to be at least the dwell window
old, but a missing entry defaults to the current instant, so the guard always
reverts instead. -/
theorem debounceStep_since_none (g : GuidanceMaps) (h : ∀ j, g.stateSince j = none)
    (i : Int) (s : GState) (now : ℚ) (j : Int) :
    ((debounceStep g i s now).1).stateSince j = none := by
  simp only [debounceStep, h i, Option.getD_none]
  split
  · rw [if_pos (by norm_num : now - now < 1/4)]
    exact h j
  · exact h j

/-- Along any observation trace from the initial maps, every debounce
timestamp stays unset. -/
theorem runGuidance_since_none (obs : List GuidObs) (j : Int) :
    (runGuidance obs).stateSince j = none := by
  have hgen : ∀ (l : List GuidObs) (g : GuidanceMaps),
      (∀ j2, g.stateSince j2 = none) → ∀ j2,
      (l.foldl (fun g o => (debounceStep g o.aruco_id o.state o.now).1) g).stateSince j2
        = none := by
    intro l
    induction l with
    | nil => exact fun g hg j2 => hg j2
    | cons o rest ih =>
      intro g hg j2
      exact ih _ (fun j3 => debounceStep_since_none g hg o.aruco_id o.state o.now j3) j2
  exact hgen obs guidanceInit (fun _ => rfl) j

/-- With no stored debounce timestamp, a confirmed state never yields: the
reported state and the recorded state remain the previously confirmed one,
whatever per-frame state arrives. -/
theorem debounceStep_stuck (g : GuidanceMaps) (i : Int) (p : GState)
    (hsince : g.stateSince i = none) (hlast : g.lastState i = some p)
    (s : GState) (now : ℚ) :
    (debounceStep g i s now).2 = p ∧
    ((debounceStep g i s now).1).lastState i = some p := by
  by_cases hs : s = p
  · subst hs
    simp only [debounceStep, hlast, ne_eq, not_true_eq_false]
    rw [if_neg (by simp)]
    exact ⟨rfl, by simp⟩
  · simp only [debounceStep, hlast, hsince, Option.getD_none, ne_eq]
    rw [if_pos (by simp [Ne.symm hs] : ¬ (some p = some s))]
    rw [if_pos (by norm_num : now - now < 1/4)]
    exact ⟨rfl, by simp⟩

/-! ## Claim theorems -/

/-- C10: the remote landmark client keeps its configured limits within floors
at all times: after construction (`clientInit`, whatever its arguments, which
silently clamp rather than reject) and after every subsequent event — every
`update_limits` call (again clamped) and every `detect_faces` call — `rps` is
at least 1, `timeout_s` is at least 0.1 seconds, and `min_interval_ms` is at
least 0. -/
theorem C10_limit_floors (enabled : Bool) (rps0 : Int) (t0 : ℚ) (m0 : Int)
    (evs : List ClientEvent) :
    (∀ st r t m, (updateLimits st r t m).rps = max 1 r ∧
      (updateLimits st r t m).timeout_s = max (1/10) t ∧
      (updateLimits st r t m).min_interval_ms = max 0 m) ∧
    1 ≤ (evs.foldl clientStep (clientInit enabled rps0 t0 m0)).rps ∧
    1/10 ≤ (evs.foldl clientStep (clientInit enabled rps0 t0 m0)).timeout_s ∧
    0 ≤ (evs.foldl clientStep (clientInit enabled rps0 t0 m0)).min_interval_ms := by
  exact ⟨fun st r t m => ⟨rfl, rfl, rfl⟩,
    limitsFloor_run evs (clientInit enabled rps0 t0 m0)
      (le_max_left 1 rps0) (le_max_left (1/10) t0) (le_max_left 0 m0)⟩

/-- C5: with `rps = 2` and `min_interval_ms = 0`, the rolling-window rate
limiter grants two reservations at one instant and refuses a third at that
same instant; a recorded call stops counting against the window once more
than one second has elapsed since it (the purge drops it), after which a new
reservation at that later instant succeeds — stated concretely for the
scenario and generally for any state whose recorded calls are all more than
one second old. -/
theorem C5_rate_limiter :
    ((reserveSlot (clientInit true 2 (4/5) 0) 100 100000000000).1 = true ∧
     (reserveSlot (reserveSlot (clientInit true 2 (4/5) 0) 100 100000000000).2
        100 100000000000).1 = true ∧
     (reserveSlot (reserveSlot (reserveSlot (clientInit true 2 (4/5) 0)
        100 100000000000).2 100 100000000000).2 100 100000000000).1 = false ∧
     (reserveSlot (reserveSlot (reserveSlot (clientInit true 2 (4/5) 0)
        100 100000000000).2 100 100000000000).2 (203/2) 101500000000).1 = true) ∧
    (∀ (st : ClientState) (now : ℚ) (now_ns : Int),
      (∀ t ∈ st.call_times, now - t > 1) →
      1 ≤ st.rps → st.min_interval_ms = 0 → st.last_call_ns ≤ now_ns →
      (reserveSlot st now now_ns).1 = true ∧
      (reserveSlot st now now_ns).2.call_times = [now]) := by
  constructor
  · refine ⟨?_, ?_, ?_, ?_⟩ <;> norm_num [reserveSlot, clientInit, List.dropWhile]
  · intro st now now_ns hall hrps hmin hle
    have hgen : ∀ l : List ℚ, (∀ t ∈ l, now - t > 1) →
        List.dropWhile (fun t => decide (now - t > 1)) l = [] := by
      intro l
      induction l with
      | nil => intro _; rfl
      | cons x xs ih =>
        intro hl
        have hx : now - x > 1 := hl x (List.mem_cons_self x xs)
        simp only [List.dropWhile_cons, decide_eq_true_eq, hx, if_pos]
        exact ih (fun t ht => hl t (List.mem_cons_of_mem x ht))
    have hdrop : st.call_times.dropWhile (fun t => decide (now - t > 1)) = [] :=
      hgen st.call_times hall
    simp only [reserveSlot, hdrop]
    have hlen : ¬ ((([] : List ℚ).length : Int) ≥ st.rps) := by
      simp only [List.length_nil, Int.natCast_zero]
      omega
    rw [if_neg hlen]
    have hint : ¬ (st.last_call_ns ≠ 0 ∧
        ((now_ns - st.last_call_ns : Int) : ℚ) / 1000000 < (st.min_interval_ms : ℚ)) := by
      rintro ⟨-, hlt⟩
      rw [hmin] at hlt
      have hnum : (0 : ℚ) ≤ ((now_ns - st.last_call_ns : Int) : ℚ) := by
        have : (0 : Int) ≤ now_ns - st.last_call_ns := by omega
        exact_mod_cast this
      have : (0 : ℚ) ≤ ((now_ns - st.last_call_ns : Int) : ℚ) / 1000000 := by positivity
      simp only [Int.cast_zero] at hlt
      linarith
    rw [if_neg hint]
    exact ⟨rfl, rfl⟩

/-- C5 witness: the general window-expiry part applied to a concrete state
holding one call recorded 1.5 seconds before the reservation instant. -/
theorem C5_rate_limiter_witness :
    (reserveSlot ⟨true, 2, 4/5, 0, 0, 0, none, false, [100], 100000000000, 0, 0, 0, []⟩
      (203/2) 101500000000).1 = true ∧
    (reserveSlot ⟨true, 2, 4/5, 0, 0, 0, none, false, [100], 100000000000, 0, 0, 0, []⟩
      (203/2) 101500000000).2.call_times = [203/2] :=
  C5_rate_limiter.2 ⟨true, 2, 4/5, 0, 0, 0, none, false, [100], 100000000000, 0, 0, 0, []⟩
    (203/2) 101500000000 (by intro t ht; simp only [List.mem_singleton] at ht; rw [ht]; norm_num)
    (by norm_num) rfl (by norm_num)

/-- C3 counterexample: with a configured baseline fiducial stride of 9 (an
integer the shared settings may supply), one governor invocation leaves the
fiducial stride at 9, outside the claimed range [2, 8] — the baseline floor is
applied after the safety clamp and overrides its upper bound. -/
theorem C3_counterexample :
    (adaptPerformance ⟨1, 2, 1280, 0⟩ 100 1000000000 9).aruco_frame_stride = 9 ∧
    ¬ ((adaptPerformance ⟨1, 2, 1280, 0⟩ 100 1000000000 9).aruco_frame_stride ≤ 8) := by
  norm_num [adaptPerformance, perfEscalate, perfClamp, perfBaselineFloor,
    max_def, min_def]

/-- C3 (amended): after every invocation of the adaptive performance governor,
whatever the input latency, state and baseline-stride setting: the face stride
lies in [1, 8]; the face target width lies in [320, 1280] (the code clamps to
the constant 1280, not to the configured native width); the fiducial stride is
at least 2 and at least the configured baseline, and lies within [2, 8] only
when the baseline does not exceed 8 — in general it is bounded by
`max 8 (max 1 baseline)`. -/
theorem C3_amended_bounds (st : PerfState) (e2e_ms : ℚ) (now_ns : Int) (b : Int) :
    1 ≤ (adaptPerformance st e2e_ms now_ns b).face_frame_stride ∧
    (adaptPerformance st e2e_ms now_ns b).face_frame_stride ≤ 8 ∧
    320 ≤ (adaptPerformance st e2e_ms now_ns b).face_target_w ∧
    (adaptPerformance st e2e_ms now_ns b).face_target_w ≤ 1280 ∧
    2 ≤ (adaptPerformance st e2e_ms now_ns b).aruco_frame_stride ∧
    b ≤ (adaptPerformance st e2e_ms now_ns b).aruco_frame_stride ∧
    (adaptPerformance st e2e_ms now_ns b).aruco_frame_stride ≤ max 8 (max 1 b) := by
  have hface := (perfBaselineFloor_face (perfClamp (perfEscalate st e2e_ms now_ns)) b).1
  have hwidth := (perfBaselineFloor_face (perfClamp (perfEscalate st e2e_ms now_ns)) b).2.1
  have haruco := perfBaselineFloor_aruco (perfClamp (perfEscalate st e2e_ms now_ns)) b
  have hclamp := perfClamp_fields (perfEscalate st e2e_ms now_ns)
  unfold adaptPerformance
  rw [hface, hwidth, hclamp.1, hclamp.2.2.1]
  rw [hclamp.2.1] at haruco
  refine ⟨by omega, by omega, by omega, by omega, by omega, haruco.2.1, by omega⟩

/-- C6 counterexample: one governor call with baseline setting 9 leaves the
fiducial stride at 9 — a reachable state.  From it, a 1300 ms cycle (latency
above 1200 ms) lowers the fiducial stride to 8 through the safety clamp,
falsifying "never lowers any stride on that same cycle"; and a 1000 ms cycle
also lowers it, falsifying "any stride decrease happens only when latency is
below 180 ms and at least 3000 ms have elapsed". -/
theorem C6_counterexample :
    (adaptPerformance ⟨1, 2, 1280, 0⟩ 100 1000000000 9).aruco_frame_stride = 9 ∧
    ((1300 : ℚ) > 1200 ∧
     (adaptPerformance (adaptPerformance ⟨1, 2, 1280, 0⟩ 100 1000000000 9)
        1300 2000000000 2).aruco_frame_stride = 8) ∧
    (¬ ((1000 : ℚ) < 180) ∧
     (adaptPerformance (adaptPerformance ⟨1, 2, 1280, 0⟩ 100 1000000000 9)
        1000 2000000000 2).aruco_frame_stride = 8) := by
  norm_num [adaptPerformance, perfEscalate, perfClamp, perfBaselineFloor,
    max_def, min_def]

/-- C6 (amended): on a cycle with end-to-end latency above 1200 ms the
governor sets the face stride to exactly 8, raises the fiducial stride to at
least 6, caps the face target width at 640 px, resets the last-adapted
timestamp, and lowers neither stride below `min(previous, 8)` — a fiducial
stride previously pushed above 8 by a larger baseline setting is clamped down
to the cap 8 regardless of latency.  In general, a stride decrease either
starts from a stride above 8 (the safety clamp pulls it to 8 at any latency)
or happens only when the latency is below 180 ms and the code-measured
elapsed time since the last adaptation exceeds 3000 ms; and no stride ever
drops below `min(previous - 1, 8)` in one invocation. -/
theorem C6_escalation_amended (st : PerfState) (e2e_ms : ℚ) (now_ns : Int) (b : Int) :
    (e2e_ms > 1200 →
      (adaptPerformance st e2e_ms now_ns b).face_frame_stride = 8 ∧
      6 ≤ (adaptPerformance st e2e_ms now_ns b).aruco_frame_stride ∧
      (adaptPerformance st e2e_ms now_ns b).face_target_w ≤ 640 ∧
      min st.face_frame_stride 8
        ≤ (adaptPerformance st e2e_ms now_ns b).face_frame_stride ∧
      min st.aruco_frame_stride 8
        ≤ (adaptPerformance st e2e_ms now_ns b).aruco_frame_stride ∧
      (adaptPerformance st e2e_ms now_ns b).perf_last_adapt_ns = now_ns) ∧
    (((adaptPerformance st e2e_ms now_ns b).face_frame_stride < st.face_frame_stride ∨
      (adaptPerformance st e2e_ms now_ns b).aruco_frame_stride < st.aruco_frame_stride) →
      8 < st.face_frame_stride ∨ 8 < st.aruco_frame_stride ∨
      (e2e_ms < 180 ∧
       (3000 : ℚ) ≤ ((now_ns - st.perf_last_adapt_ns : Int) : ℚ) / 1000000)) ∧
    (min (st.face_frame_stride - 1) 8
      ≤ (adaptPerformance st e2e_ms now_ns b).face_frame_stride ∧
     min (st.aruco_frame_stride - 1) 8
      ≤ (adaptPerformance st e2e_ms now_ns b).aruco_frame_stride) := by
  have hface := (perfBaselineFloor_face (perfClamp (perfEscalate st e2e_ms now_ns)) b).1
  have hwidth := (perfBaselineFloor_face (perfClamp (perfEscalate st e2e_ms now_ns)) b).2.1
  have hlast := (perfBaselineFloor_face (perfClamp (perfEscalate st e2e_ms now_ns)) b).2.2
  have haruco := perfBaselineFloor_aruco (perfClamp (perfEscalate st e2e_ms now_ns)) b
  have hclamp := perfClamp_fields (perfEscalate st e2e_ms now_ns)
  rw [hclamp.2.1] at haruco
  refine ⟨?_, ?_, ?_⟩
  · intro hlat
    have he := perfEscalate_hot st e2e_ms now_ns hlat
    have hEf : (perfEscalate st e2e_ms now_ns).face_frame_stride
        = max st.face_frame_stride 8 := by rw [he]
    have hEa : (perfEscalate st e2e_ms now_ns).aruco_frame_stride
        = max st.aruco_frame_stride 6 := by rw [he]
    have hEw : (perfEscalate st e2e_ms now_ns).face_target_w
        = min st.face_target_w 640 := by rw [he]
    have hEl : (perfEscalate st e2e_ms now_ns).perf_last_adapt_ns = now_ns := by rw [he]
    rw [hEa] at haruco
    unfold adaptPerformance
    rw [hface, hwidth, hlast, hclamp.1, hclamp.2.2.1, hclamp.2.2.2, hEf, hEw, hEl]
    exact ⟨by omega, by omega, by omega, by omega, by omega, rfl⟩
  · intro hdec
    by_cases hfbig : 8 < st.face_frame_stride
    · exact Or.inl hfbig
    by_cases habig : 8 < st.aruco_frame_stride
    · exact Or.inr (Or.inl habig)
    refine Or.inr (Or.inr ?_)
    apply And.imp id le_of_lt
    apply perfEscalate_decrease st e2e_ms now_ns
    unfold adaptPerformance at hdec
    rcases hdec with h | h
    · left
      rw [hface, hclamp.1] at h
      omega
    · right
      have hin := haruco.1
      omega
  · constructor
    · have hstep := (perfEscalate_one_step st e2e_ms now_ns).1
      unfold adaptPerformance
      rw [hface, hclamp.1]
      omega
    · have hstep := (perfEscalate_one_step st e2e_ms now_ns).2
      have hin := haruco.1
      unfold adaptPerformance
      omega

/-- C6 witness: the escalation conjunct applied at 1300 ms latency from the
default performance state, and the decrease guard applied at a state and
instant where a face-stride decrease actually occurs (100 ms latency, 4000 ms
since the last adaptation). -/
theorem C6_escalation_amended_witness :
    ((adaptPerformance ⟨1, 2, 1280, 0⟩ 1300 5000000000 2).face_frame_stride = 8 ∧
     6 ≤ (adaptPerformance ⟨1, 2, 1280, 0⟩ 1300 5000000000 2).aruco_frame_stride ∧
     (adaptPerformance ⟨1, 2, 1280, 0⟩ 1300 5000000000 2).face_target_w ≤ 640 ∧
     min (1 : Int) 8
       ≤ (adaptPerformance ⟨1, 2, 1280, 0⟩ 1300 5000000000 2).face_frame_stride ∧
     min (2 : Int) 8
       ≤ (adaptPerformance ⟨1, 2, 1280, 0⟩ 1300 5000000000 2).aruco_frame_stride ∧
     (adaptPerformance ⟨1, 2, 1280, 0⟩ 1300 5000000000 2).perf_last_adapt_ns
       = 5000000000) ∧
    ((8 : Int) < 2 ∨ (8 : Int) < 3 ∨
     ((100 : ℚ) < 180 ∧ (3000 : ℚ) ≤ ((4000000000 - 0 : Int) : ℚ) / 1000000)) :=
  ⟨(C6_escalation_amended ⟨1, 2, 1280, 0⟩ 1300 5000000000 2).1 (by norm_num),
   (C6_escalation_amended ⟨2, 3, 320, 0⟩ 100 4000000000 2).2.1
     (Or.inl (by norm_num [adaptPerformance, perfEscalate, perfClamp,
        perfBaselineFloor, max_def, min_def]))⟩

/-- C1: in the tool-alignment state machine, a newly observed per-frame state
that differs from a marker's confirmed state becomes the externally reported
state only after the 0.25 s dwell window — from any state reachable from
start-up the reported and recorded state simply remain the confirmed one;
each marker id has its own independent entries, untouched by observations of
other ids; and concretely, a single ALIGNING frame amid GOOD frames within
the window reports GOOD and leaves the confirmed state GOOD. -/
theorem C1_guidance_debounce :
    (∀ (obs : List GuidObs) (i : Int) (p s : GState) (now : ℚ),
      (runGuidance obs).lastState i = some p → s ≠ p →
      (debounceStep (runGuidance obs) i s now).2 = p ∧
      ((debounceStep (runGuidance obs) i s now).1).lastState i = some p) ∧
    (∀ (g : GuidanceMaps) (i j : Int) (s : GState) (now : ℚ), j ≠ i →
      ((debounceStep g i s now).1).lastState j = g.lastState j ∧
      ((debounceStep g i s now).1).stateSince j = g.stateSince j) ∧
    ((debounceStep (runGuidance [⟨7, .GOOD, 0⟩, ⟨7, .GOOD, 1/10⟩]) 7 .ALIGNING
        (1/5)).2 = .GOOD ∧
     (runGuidance [⟨7, .GOOD, 0⟩, ⟨7, .GOOD, 1/10⟩, ⟨7, .ALIGNING, 1/5⟩,
        ⟨7, .GOOD, 3/10⟩]).lastState 7 = some .GOOD) := by
  refine ⟨?_, ?_, ?_, ?_⟩
  · intro obs i p s now hl hs
    exact debounceStep_stuck (runGuidance obs) i p (runGuidance_since_none obs i) hl s now
  · intro g i j s now hji
    simp only [debounceStep]
    by_cases h1 : g.lastState i ≠ some s
    · rw [if_pos h1]
      by_cases h2 : now - (g.stateSince i).getD now < 1/4
      · rw [if_pos h2]
        exact ⟨by simp [hji], rfl⟩
      · rw [if_neg h2]
        exact ⟨by simp [hji], by simp [hji]⟩
    · rw [if_neg h1]
      exact ⟨by simp [hji], rfl⟩
  · norm_num [runGuidance, debounceStep, guidanceInit, List.foldl]
    decide
  · norm_num [runGuidance, debounceStep, guidanceInit, List.foldl]
    decide

/-- C1 witness: the stability conjunct applied to the one-frame trace that
confirms GOOD for marker 7, with an ALIGNING frame arriving 0.1 s later, and
the independence conjunct applied to marker 5 against an observation of
marker 7. -/
theorem C1_guidance_debounce_witness :
    ((debounceStep (runGuidance [⟨7, .GOOD, 0⟩]) 7 .ALIGNING (1/10)).2 = .GOOD ∧
     ((debounceStep (runGuidance [⟨7, .GOOD, 0⟩]) 7 .ALIGNING (1/10)).1).lastState 7
       = some .GOOD) ∧
    ((debounceStep guidanceInit 7 .GOOD 0).1.lastState 5 = guidanceInit.lastState 5 ∧
     (debounceStep guidanceInit 7 .GOOD 0).1.stateSince 5 = guidanceInit.stateSince 5) :=
  ⟨C1_guidance_debounce.1 [⟨7, .GOOD, 0⟩] 7 .GOOD .ALIGNING (1/10)
      (by norm_num [runGuidance, debounceStep, guidanceInit, List.foldl]) (by simp),
   C1_guidance_debounce.2.1 guidanceInit 7 5 .GOOD 0 (by norm_num)⟩

/-- C2: in `_merge_cloud_landmarks` the fusion weight is the confidence
clamped to [0.2, 0.8] for positive confidence and 0.5 for zero confidence; a
landmark shared with the local set is blended as
`local * (1 - weight) + remote * weight` (remote coordinates clamped into the
unit square); a landmark present only remotely is adopted outright; and in the
concrete case — local (0.5, 0.5), remote (0.7, 0.3), confidence 0.6, fresh
smoothing state — the returned landmark is (0.62, 0.38), inside
x ∈ [0.55, 0.7] and y ∈ [0.3, 0.48]. -/
theorem C2_cloud_fusion :
    (∀ conf : ℚ, 0 < conf → cloudWeight conf = max (1/5) (min (4/5) conf)) ∧
    cloudWeight 0 = 1/2 ∧
    (∀ (ema : EmaMap) (base : LmMap) (name : String) (p l : Landmark) (conf : ℚ),
      base name = some l → ema name = none →
      (mergeCloudLandmarks ema base [(name, p)] conf).2 name =
        some (l.1 * (1 - cloudWeight conf) + clamp01 p.1 * cloudWeight conf,
              l.2 * (1 - cloudWeight conf) + clamp01 p.2 * cloudWeight conf)) ∧
    (∀ (ema : EmaMap) (base : LmMap) (name : String) (p : Landmark) (conf : ℚ),
      base name = none → ema name = none →
      (mergeCloudLandmarks ema base [(name, p)] conf).2 name =
        some (clamp01 p.1, clamp01 p.2)) ∧
    ((mergeCloudLandmarks (fun _ => none)
        (fun j => if j = "mouth_center" then some (1/2, 1/2) else none)
        [("mouth_center", (7/10, 3/10))] (3/5)).2 "mouth_center"
      = some (31/50, 19/50) ∧
     (11/20 : ℚ) ≤ 31/50 ∧ (31/50 : ℚ) ≤ 7/10 ∧
     (3/10 : ℚ) ≤ 19/50 ∧ (19/50 : ℚ) ≤ 12/25) := by
  refine ⟨?_, ?_, ?_, ?_, ?_⟩
  · intro conf hc
    simp only [cloudWeight, if_pos hc]
  · norm_num [cloudWeight]
  · intro ema base name p l conf hbase hema
    simp [mergeCloudLandmarks, smooth, hbase, hema]
  · intro ema base name p conf hbase hema
    simp [mergeCloudLandmarks, smooth, hbase, hema]
  · refine ⟨?_, by norm_num, by norm_num, by norm_num, by norm_num⟩
    norm_num [mergeCloudLandmarks, smooth, cloudWeight, clamp01, max_def, min_def]

/-- C2 witness: the weight-clamping conjunct applied at confidence 0.6, and
the blend-formula conjunct applied at the concrete local/remote pair with a
fresh smoother. -/
theorem C2_cloud_fusion_witness :
    cloudWeight (3/5) = max (1/5) (min (4/5) (3/5)) ∧
    (mergeCloudLandmarks (fun _ => none)
        (fun j => if j = "mouth_center" then some (1/2, 1/2) else none)
        [("mouth_center", (7/10, 3/10))] (3/5)).2 "mouth_center" =
      some ((1/2 : ℚ) * (1 - cloudWeight (3/5)) + clamp01 (7/10) * cloudWeight (3/5),
            (1/2 : ℚ) * (1 - cloudWeight (3/5)) + clamp01 (3/10) * cloudWeight (3/5)) :=
  ⟨C2_cloud_fusion.1 (3/5) (by norm_num),
   C2_cloud_fusion.2.2.1 (fun _ => none)
     (fun j => if j = "mouth_center" then some (1/2, 1/2) else none)
     "mouth_center" (7/10, 3/10) (1/2, 1/2) (3/5) (by simp) rfl⟩

/-- `_smooth` always stores the value it returns under the key. -/
theorem smooth_stores (ema : EmaMap) (name : String) (v : Landmark) :
    (smooth ema name v).1 name = some (smooth ema name v).2 := by
  simp only [smooth]
  cases h : ema name <;> simp [h]

/-- After any feed, the EMA entry under the key is the value just returned. -/
theorem feedConst_stores (ema : EmaMap) (name : String) (c : Landmark) (n : Nat) :
    (feedConst ema name c n).1 name = some (feedConst ema name c n).2 := by
  cases n <;> exact smooth_stores _ _ _

/-- Smoothing against a stored previous value scales the L1 distance to the
fed constant by exactly `1 - alpha = 0.6`. -/
theorem smooth_dist (ema : EmaMap) (name : String) (c prev : Landmark)
    (h : ema name = some prev) :
    lmDist (smooth ema name c).2 c = 3/5 * lmDist prev c := by
  simp only [smooth, h, lmDist]
  have h1 : 2/5 * c.1 + 3/5 * prev.1 - c.1 = 3/5 * (prev.1 - c.1) := by ring
  have h2 : 2/5 * c.2 + 3/5 * prev.2 - c.2 = 3/5 * (prev.2 - c.2) := by ring
  rw [h1, h2, abs_mul, abs_mul, abs_of_nonneg (by norm_num : (0:ℚ) ≤ 3/5)]
  ring

/-- Each successive feed of the constant scales the distance by 0.6. -/
theorem feedConst_dist (ema : EmaMap) (name : String) (c : Landmark) (n : Nat) :
    lmDist (feedConst ema name c (n+1)).2 c
      = 3/5 * lmDist (feedConst ema name c n).2 c :=
  smooth_dist (feedConst ema name c n).1 name c (feedConst ema name c n).2
    (feedConst_stores ema name c n)

/-- The L1 landmark distance is nonnegative. -/
theorem lmDist_nonneg (a b : Landmark) : 0 ≤ lmDist a b := by
  unfold lmDist
  positivity

/-- C8: for the per-key EMA smoother with alpha 0.4, the first observation of
a key is returned unchanged; thereafter, feeding one constant coordinate
repeatedly makes the distance to that constant non-increasing (it shrinks by
a factor 0.6 each feed), and it converges to the constant: below any positive
bound after finitely many feeds. -/
theorem C8_ema_convergence :
    (∀ (ema : EmaMap) (name : String) (v : Landmark),
      ema name = none → (smooth ema name v).2 = v) ∧
    (∀ (ema : EmaMap) (name : String) (c : Landmark) (n : Nat),
      lmDist (feedConst ema name c (n+1)).2 c ≤ lmDist (feedConst ema name c n).2 c) ∧
    (∀ (ema : EmaMap) (name : String) (c : Landmark) (ε : ℚ), 0 < ε →
      ∃ n : Nat, lmDist (feedConst ema name c n).2 c < ε) := by
  refine ⟨?_, ?_, ?_⟩
  · intro ema name v h
    simp [smooth, h]
  · intro ema name c n
    rw [feedConst_dist]
    have h0 := lmDist_nonneg (feedConst ema name c n).2 c
    linarith
  · intro ema name c ε hε
    have hpow : ∀ n : Nat, lmDist (feedConst ema name c n).2 c
        = (3/5 : ℚ)^n * lmDist (feedConst ema name c 0).2 c := by
      intro n
      induction n with
      | zero => simp
      | succ k ih => rw [feedConst_dist, ih]; ring
    have hdnn : 0 ≤ lmDist (feedConst ema name c 0).2 c := lmDist_nonneg _ _
    obtain ⟨n, hn⟩ := exists_pow_lt_of_lt_one
      (show (0:ℚ) < ε / (lmDist (feedConst ema name c 0).2 c + 1) by positivity)
      (show (3/5 : ℚ) < 1 by norm_num)
    refine ⟨n, ?_⟩
    rw [hpow n]
    calc (3/5 : ℚ)^n * lmDist (feedConst ema name c 0).2 c
        ≤ (3/5 : ℚ)^n * (lmDist (feedConst ema name c 0).2 c + 1) := by
          apply mul_le_mul_of_nonneg_left (by linarith) (by positivity)
      _ < (ε / (lmDist (feedConst ema name c 0).2 c + 1))
            * (lmDist (feedConst ema name c 0).2 c + 1) := by
          apply mul_lt_mul_of_pos_right hn (by linarith)
      _ = ε := div_mul_cancel₀ ε (by linarith)

/-- C8 witness: the first-observation conjunct applied to an empty smoother,
and the convergence conjunct applied with bound 1. -/
theorem C8_ema_convergence_witness :
    (smooth (fun _ => none) "mouth_center" (1/2, 1/2)).2 = (1/2, 1/2) ∧
    ∃ n : Nat, lmDist (feedConst (fun _ => none) "mouth_center" (7/10, 3/10) n).2
      (7/10, 3/10) < 1 :=
  ⟨C8_ema_convergence.1 (fun _ => none) "mouth_center" (1/2, 1/2) rfl,
   C8_ema_convergence.2.2 (fun _ => none) "mouth_center" (7/10, 3/10) 1 (by norm_num)⟩

/-- Once the attempt flag is set, a full load call is a pure cache read that
leaves the module state unchanged and never touches the filesystem. -/
theorem loadFull_tried (st : IntrState) (h : st.tried = true)
    (p : String) (c : CtorOutcome) :
    loadCameraIntrinsicsFull st p c
      = ⟨st, some (st.k, st.dist, st.ok, st.err), false⟩ := by
  simp only [loadCameraIntrinsicsFull, h, if_true]

/-- A trace of full calls after the attempt leaves the module state
unchanged. -/
theorem runIntrinsicsFull_tried (st : IntrState) (h : st.tried = true)
    (calls : List (String × CtorOutcome)) :
    runIntrinsicsFull st calls = st := by
  induction calls with
  | nil => rfl
  | cons c rest ih =>
    simp only [runIntrinsicsFull, List.foldl_cons] at ih ⊢
    rw [loadFull_tried st h c.1 c.2]
    exact ih

/-- C9: the at-most-once property fails in the source.  The
`cv2.FileStorage` constructor runs before the `try`/`finally` block of
`load_camera_intrinsics` (ar_overlay.py:32), so when it raises — malformed
intrinsics content — nothing is cached: the module state is untouched, the
exception propagates, and the next call reads the filesystem again.  The
claimed permanent caching holds exactly for attempts that get past the
constructor: after a first call whose constructor yields a handle, every
later call — any path, any constructor outcome, any interleaved trace —
returns the first call's tuple without touching the filesystem. -/
theorem C9_intrinsics_retry_bug :
    ((loadCameraIntrinsicsFull intrInit "config/camera_intrinsics.yml"
        (.raised "parse error")).state = intrInit ∧
     (loadCameraIntrinsicsFull intrInit "config/camera_intrinsics.yml"
        (.raised "parse error")).result = none ∧
     (loadCameraIntrinsicsFull intrInit "config/camera_intrinsics.yml"
        (.raised "parse error")).fsTouched = true ∧
     (loadCameraIntrinsicsFull
        (loadCameraIntrinsicsFull intrInit "config/camera_intrinsics.yml"
          (.raised "parse error")).state
        "config/camera_intrinsics.yml" (.raised "parse error")).fsTouched = true) ∧
    (∀ (p1 : String) (o1 : FSOutcome) (calls : List (String × CtorOutcome))
        (p : String) (c : CtorOutcome),
      (loadCameraIntrinsicsFull
          (runIntrinsicsFull
            (loadCameraIntrinsicsFull intrInit p1 (.opened o1)).state calls)
          p c).result = some (loadCameraIntrinsics intrInit p1 o1).result ∧
      (loadCameraIntrinsicsFull
          (runIntrinsicsFull
            (loadCameraIntrinsicsFull intrInit p1 (.opened o1)).state calls)
          p c).fsTouched = false) := by
  refine ⟨⟨rfl, rfl, rfl, rfl⟩, ?_⟩
  intro p1 o1 calls p c
  have htried : (loadCameraIntrinsicsFull intrInit p1 (.opened o1)).state.tried
      = true := by
    cases o1 <;> rfl
  rw [runIntrinsicsFull_tried _ htried calls, loadFull_tried _ htried p c]
  refine ⟨?_, rfl⟩
  cases o1 <;> rfl

/-- C7 counterexample: with an empty previous detection result, a call well
inside the minimum detection interval (0.01 s after the previous detection,
interval 0.065 s) still reruns marker detection — the cheap-cache branch
additionally requires a non-empty previous anchor list. -/
theorem C7_counterexample :
    ((10001/100 : ℚ) - 100 < 13/200) ∧
    (detectArucoAnchors ⟨fun _ => none, fun _ => none, 100, [], intrInit⟩
        (10001/100) true .notOpened (some []) (fun _ => none)).detectionRan = true := by
  constructor
  · norm_num
  · norm_num [detectArucoAnchors, loadCameraIntrinsics, intrInit]

/-- C7 (amended): provided the previous anchor list is non-empty, calling the
fiducial detector again before the minimum detection interval (0.065 s) has
elapsed returns the previous anchor list unchanged without running marker
detection, recomputing only the meta block — `pose_available` (and the error
string) from the cached intrinsics status — and leaves the anchor cache, the
cadence clock and the smoothing state untouched. -/
theorem C7_detection_cache (st : ArucoState) (now : ℚ) (pe : Bool) (fs : FSOutcome)
    (det : Option (List MarkerIn)) (poseOf : Int → Option (ℚ × ℚ × ℚ))
    (hfresh : now - st.last_ts < 13/200) (hne : st.last_anchors ≠ []) :
    (detectArucoAnchors st now pe fs det poseOf).anchors = st.last_anchors ∧
    (detectArucoAnchors st now pe fs det poseOf).detectionRan = false ∧
    (detectArucoAnchors st now pe fs det poseOf).meta.pose_enabled = pe ∧
    (detectArucoAnchors st now pe fs det poseOf).meta.pose_available
      = (pe && (loadCameraIntrinsics st.intr "config/camera_intrinsics.yml"
          fs).result.2.2.1) ∧
    (detectArucoAnchors st now pe fs det poseOf).meta.intrinsics_error
      = (if (loadCameraIntrinsics st.intr "config/camera_intrinsics.yml"
            fs).result.2.2.1
         then none
         else (loadCameraIntrinsics st.intr "config/camera_intrinsics.yml"
            fs).result.2.2.2) ∧
    (detectArucoAnchors st now pe fs det poseOf).state.last_anchors
      = st.last_anchors ∧
    (detectArucoAnchors st now pe fs det poseOf).state.last_ts = st.last_ts ∧
    (∀ j, (detectArucoAnchors st now pe fs det poseOf).state.prev_center j
      = st.prev_center j) := by
  simp only [detectArucoAnchors]
  rw [if_pos ⟨hfresh, hne⟩]
  exact ⟨rfl, rfl, rfl, rfl, rfl, rfl, rfl, fun j => rfl⟩

/-- C7 witness: the cache conjuncts applied to a state holding one cached
anchor for marker 3, called 0.01 s after the previous detection. -/
theorem C7_detection_cache_witness :
    (detectArucoAnchors ⟨fun _ => none, fun _ => none, 100, [⟨3, (5, 5), none⟩],
        intrInit⟩ (10001/100) true .notOpened (some []) (fun _ => none)).anchors
      = [⟨3, (5, 5), none⟩] ∧
    (detectArucoAnchors ⟨fun _ => none, fun _ => none, 100, [⟨3, (5, 5), none⟩],
        intrInit⟩ (10001/100) true .notOpened (some []) (fun _ => none)).detectionRan
      = false :=
  ⟨(C7_detection_cache ⟨fun _ => none, fun _ => none, 100, [⟨3, (5, 5), none⟩],
      intrInit⟩ (10001/100) true .notOpened (some []) (fun _ => none)
      (by norm_num) (by simp)).1,
   (C7_detection_cache ⟨fun _ => none, fun _ => none, 100, [⟨3, (5, 5), none⟩],
      intrInit⟩ (10001/100) true .notOpened (some []) (fun _ => none)
      (by norm_num) (by simp)).2.1⟩

/-- A reservation from a state with no recorded calls is granted and records
the call. -/
theorem reserveSlot_fresh (st : ClientState) (now : ℚ) (nn : Int)
    (hct : st.call_times = []) (hlast : st.last_call_ns = 0) (hrps : 1 ≤ st.rps) :
    reserveSlot st now nn
      = (true, { st with call_times := [now], last_call_ns := nn }) := by
  simp only [reserveSlot, hct, hlast, List.dropWhile_nil, List.nil_append]
  rw [if_neg (by simp only [List.length_nil, Int.natCast_zero]; omega),
    if_neg (by simp)]

/-- C4: in the remote landmark client, a call with the breaker open inside the
cooldown returns refused without attempting the network and without changing
state; a call that reaches the network and fails on all four retries
increments the consecutive-failure counter, opening the breaker exactly when
the counter reaches 3, with the cooldown deadline set 10 seconds (10^10 ns)
ahead; and a call arriving at or after the cooldown deadline is let through —
the network is attempted (under a cache miss and a free rate-limiter slot) —
and a success there leaves the breaker closed with the failure counter at
zero. -/
theorem C4_circuit_breaker :
    (∀ (st : ClientState) (k : String) (att : List (Option RResult)) (l now : ℚ)
        (nn : Int),
      st.enabled = true → st.breaker_open = true → nn < st.breaker_until_ns →
      detectFaces st true true k att l now nn = ⟨st, .breakerRefused, false⟩) ∧
    (∀ (st : ClientState) (k : String) (l now : ℚ) (nn : Int),
      st.enabled = true → st.breaker_open = false →
      cacheLookup st.cache k now = none →
      st.call_times = [] → st.last_call_ns = 0 → 1 ≤ st.rps →
      (detectFaces st true true k [none, none, none, none] l now nn).result
        = .failed ∧
      (detectFaces st true true k [none, none, none, none] l now nn).networkAttempted
        = true ∧
      (detectFaces st true true k [none, none, none, none] l now
        nn).state.consecutive_failures = st.consecutive_failures + 1 ∧
      ((detectFaces st true true k [none, none, none, none] l now
          nn).state.breaker_open = true ↔ 3 ≤ st.consecutive_failures + 1) ∧
      (3 ≤ st.consecutive_failures + 1 →
        (detectFaces st true true k [none, none, none, none] l now
          nn).state.breaker_until_ns = nn + 10000000000)) ∧
    (∀ (st : ClientState) (k : String) (att : List (Option RResult)) (r : RResult)
        (l now : ℚ) (nn : Int),
      st.enabled = true → st.breaker_open = true → st.breaker_until_ns ≤ nn →
      cacheLookup st.cache k now = none →
      st.call_times = [] → st.last_call_ns = 0 → 1 ≤ st.rps →
      (detectFaces st true true k att l now nn).networkAttempted = true ∧
      ((att.take 4).findSome? id = some r →
        (detectFaces st true true k att l now nn).result = .succeeded r ∧
        (detectFaces st true true k att l now nn).state.breaker_open = false ∧
        (detectFaces st true true k att l now nn).state.consecutive_failures = 0)) := by
  refine ⟨?_, ?_, ?_⟩
  · intro st k att l now nn he hb hnn
    simp only [detectFaces]
    rw [if_neg (by simp [he]), if_pos ⟨hb, hnn⟩]
  · intro st k l now nn he hb hcache hct hlast hrps
    have hres := reserveSlot_fresh st now nn hct hlast hrps
    have hst1 : ¬ (st.breaker_open = true ∧ nn ≥ st.breaker_until_ns) := by
      simp [hb]
    simp only [detectFaces]
    rw [if_neg (by simp [he]), if_neg (by simp [hb]), if_neg hst1,
      if_neg (show ¬ ¬ True from fun hn => hn trivial)]
    simp only [hcache, hres, List.take, List.findSome?, id, registerFailure,
      eq_self_iff_true, if_true]
    refine ⟨trivial, trivial, ?_, ?_, ?_⟩
    · split <;> rfl
    · split
      · rename_i hc
        simp only [eq_self_iff_true, true_iff]
        omega
      · rename_i hc
        rw [hb]
        simp only [Bool.false_eq_true, false_iff]
        omega
    · intro h
      split
      · rfl
      · rename_i hc
        omega
  · intro st k att r l now nn he hb hnn hcache hct hlast hrps
    have hst1 : (st.breaker_open = true ∧ nn ≥ st.breaker_until_ns) := ⟨hb, hnn⟩
    have hres := reserveSlot_fresh
      { st with breaker_open := false, consecutive_failures := 0 }
      now nn hct hlast hrps
    simp only [detectFaces]
    rw [if_neg (by simp [he]), if_neg (by omega), if_pos hst1,
      if_neg (show ¬ ¬ True from fun hn => hn trivial)]
    simp only [hcache, hres, eq_self_iff_true, if_true]
    constructor
    · cases hfs : (att.take 4).findSome? id <;> simp [hfs]
    · intro hsucc
      simp only [hsucc, registerSuccess]
      refine ⟨trivial, ?_, ?_⟩ <;>
        · by_cases hok : r.ok = true
          · rw [if_pos hok]
          · rw [if_neg hok]

/-- C4 witness: the refusal conjunct applied inside a cooldown (now 500 ns,
deadline 1000 ns); the failure conjunct applied at a state with two prior
consecutive failures, so the third opens the breaker; and the probe conjunct
applied past the deadline with a successful first attempt. -/
theorem C4_circuit_breaker_witness :
    (detectFaces ⟨true, 2, 4/5, 0, 0, 0, none, true, [], 0, 3, 1000, 0, []⟩
        true true "k" [] 0 0 500
      = ⟨⟨true, 2, 4/5, 0, 0, 0, none, true, [], 0, 3, 1000, 0, []⟩,
         .breakerRefused, false⟩) ∧
    ((detectFaces ⟨true, 2, 4/5, 0, 0, 0, none, false, [], 0, 2, 0, 0, []⟩
        true true "k" [none, none, none, none] 0 0 500).result = .failed ∧
     (detectFaces ⟨true, 2, 4/5, 0, 0, 0, none, false, [], 0, 2, 0, 0, []⟩
        true true "k" [none, none, none, none] 0 0 500).networkAttempted = true ∧
     (detectFaces ⟨true, 2, 4/5, 0, 0, 0, none, false, [], 0, 2, 0, 0, []⟩
        true true "k" [none, none, none, none] 0 0 500).state.consecutive_failures
       = 2 + 1 ∧
     ((detectFaces ⟨true, 2, 4/5, 0, 0, 0, none, false, [], 0, 2, 0, 0, []⟩
        true true "k" [none, none, none, none] 0 0 500).state.breaker_open = true
       ↔ 3 ≤ 2 + 1) ∧
     (3 ≤ 2 + 1 →
       (detectFaces ⟨true, 2, 4/5, 0, 0, 0, none, false, [], 0, 2, 0, 0, []⟩
          true true "k" [none, none, none, none] 0 0 500).state.breaker_until_ns
         = 500 + 10000000000)) ∧
    ((detectFaces ⟨true, 2, 4/5, 0, 0, 0, none, true, [], 0, 3, 1000, 0, []⟩
        true true "k" [some ⟨true⟩] 0 0 2000).networkAttempted = true ∧
     (([some (⟨true⟩ : RResult)].take 4).findSome? id = some ⟨true⟩ →
       (detectFaces ⟨true, 2, 4/5, 0, 0, 0, none, true, [], 0, 3, 1000, 0, []⟩
          true true "k" [some ⟨true⟩] 0 0 2000).result = .succeeded ⟨true⟩ ∧
       (detectFaces ⟨true, 2, 4/5, 0, 0, 0, none, true, [], 0, 3, 1000, 0, []⟩
          true true "k" [some ⟨true⟩] 0 0 2000).state.breaker_open = false ∧
       (detectFaces ⟨true, 2, 4/5, 0, 0, 0, none, true, [], 0, 3, 1000, 0, []⟩
          true true "k" [some ⟨true⟩] 0 0 2000).state.consecutive_failures = 0)) :=
  ⟨C4_circuit_breaker.1 ⟨true, 2, 4/5, 0, 0, 0, none, true, [], 0, 3, 1000, 0, []⟩
     "k" [] 0 0 500 rfl rfl (by norm_num),
   C4_circuit_breaker.2.1 ⟨true, 2, 4/5, 0, 0, 0, none, false, [], 0, 2, 0, 0, []⟩
     "k" 0 0 500 rfl rfl rfl rfl rfl (by norm_num),
   C4_circuit_breaker.2.2 ⟨true, 2, 4/5, 0, 0, 0, none, true, [], 0, 3, 1000, 0, []⟩
     "k" [some ⟨true⟩] ⟨true⟩ 0 0 2000 rfl rfl (by norm_num) rfl rfl rfl (by norm_num)⟩

end NatHacks
